import Mathlib

/-!
Verification of the GroupSummary weekly-summarizer repository.

The definitions below are a shallow embedding of the Python sources:
`src/app.py` (the current pipeline: `WhatsAppSummarizer`) and
`src/archive/app-v0.1.py` (the archived character-ceiling batcher and the
word clamp).  Text is modelled as `List Char`; Python `len` on `str`
counts code points, which coincides with `List.length` on `List Char`
and with `String.length`.  External collaborators (MySQL, the OpenAI
client, the HTTP session) are modelled as oracle values carried in an
`Env` record; everything the repository itself computes is translated
directly from the source.
-/

/-- Python whitespace (the set stripped by `str.strip()` and matched by
the regex class `\s` on `str` patterns): ASCII whitespace, the
information separators 0x1c-0x1f, and the Unicode space characters. -/
def isPySpace (c : Char) : Bool :=
  let n := c.toNat
  (0x09 ≤ n && n ≤ 0x0D) || (0x1C ≤ n && n ≤ 0x1F) || n == 0x20 ||
  n == 0x85 || n == 0xA0 || n == 0x1680 || (0x2000 ≤ n && n ≤ 0x200A) ||
  n == 0x2028 || n == 0x2029 || n == 0x202F || n == 0x205F || n == 0x3000

/-- The character class of the `emoji_pattern` regex in
`WhatsAppSummarizer.remove_emojis` (src/app.py lines 327-342), range by
range in source order. -/
def isEmojiChar (c : Char) : Bool :=
  let n := c.toNat
  (0x1F1E0 ≤ n && n ≤ 0x1F1FF) ||
  (0x1F300 ≤ n && n ≤ 0x1F5FF) ||
  (0x1F600 ≤ n && n ≤ 0x1F64F) ||
  (0x1F680 ≤ n && n ≤ 0x1F6FF) ||
  (0x1F700 ≤ n && n ≤ 0x1F77F) ||
  (0x1F780 ≤ n && n ≤ 0x1F7FF) ||
  (0x1F800 ≤ n && n ≤ 0x1F8FF) ||
  (0x1F900 ≤ n && n ≤ 0x1F9FF) ||
  (0x1FA00 ≤ n && n ≤ 0x1FA6F) ||
  (0x1FA70 ≤ n && n ≤ 0x1FAFF) ||
  (0x2702 ≤ n && n ≤ 0x27B0) ||
  (0x24C2 ≤ n && n ≤ 0x1F251)

/-- Python `str.strip()`: drop whitespace from both ends. -/
def pyStrip (s : List Char) : List Char :=
  (((s.dropWhile isPySpace).reverse).dropWhile isPySpace).reverse

/-- `WhatsAppSummarizer.remove_emojis` (src/app.py lines 325-343):
`emoji_pattern.sub('', text).strip()`.  Substituting every match of the
character-class regex by the empty string deletes exactly the
characters of the class, i.e. filters them out. -/
def remove_emojis (s : List Char) : List Char :=
  pyStrip (s.filter (fun c => !isEmojiChar c))

/-- The word ceiling `TARGET_WORDS_HIGH` of src/archive/app-v0.1.py line 88. -/
def TARGET_WORDS_HIGH : Nat := 300

/-- One-pass splitter behind `pyTokens`: `acc` is the current
non-whitespace run, reversed; a whitespace character flushes it. -/
def tokensAux : List Char → List Char → List (List Char)
  | acc, [] => if acc = [] then [] else [acc.reverse]
  | acc, c :: rest =>
    if isPySpace c then
      if acc = [] then tokensAux [] rest else acc.reverse :: tokensAux [] rest
    else tokensAux (c :: acc) rest

/-- The maximal runs of non-whitespace characters, as matched by
`re.findall(r"\S+", s)` (src/archive/app-v0.1.py lines 90-91 and 94). -/
def pyTokens (s : List Char) : List (List Char) := tokensAux [] s

/-- `word_count` (src/archive/app-v0.1.py lines 90-91). -/
def word_count (s : List Char) : Nat := (pyTokens s).length

/-- Python `" ".join(words)`. -/
def joinSpace : List (List Char) → List Char
  | [] => []
  | [w] => w
  | w :: v :: ws => w ++ ' ' :: joinSpace (v :: ws)

/-- `clamp_words` (src/archive/app-v0.1.py lines 93-97): if the token
count is within the ceiling return the text unchanged, otherwise join
the first `maxWords` tokens with single spaces and append the
continuation marker, `" ".join(words[:max_words]) + "…"`. -/
def clamp_words (text : List Char) (maxWords : Nat) : List Char :=
  if (pyTokens text).length ≤ maxWords then text
  else joinSpace ((pyTokens text).take maxWords) ++ ['…']

/-- A concrete 301-word text used to witness the truncation branch. -/
def manyWords : List Char := joinSpace (List.replicate (300 + 1) ['a'])

/-- `MAX_CHARS_PER_CHUNK` of src/archive/app-v0.1.py line 84. -/
def MAX_CHARS_PER_CHUNK : Nat := 5000

/-- Per-line truncation inside `chunk_lines`
(src/archive/app-v0.1.py line 274):
`ln = ln if len(ln) <= 1000 else (ln[:1000] + " …")`. -/
def truncLine (ln : List Char) : List Char :=
  if ln.length ≤ 1000 then ln else ln.take 1000 ++ [' ', '…']

/-- The running `size` counter of `chunk_lines`: each buffered line
contributes its length plus one. -/
def szOf (buf : List (List Char)) : Nat :=
  (buf.map (fun l => l.length + 1)).sum

/-- Python `"\n".join(buf)`. -/
def joinNl : List (List Char) → List Char
  | [] => []
  | [l] => l
  | l :: l2 :: ls => l ++ '\n' :: joinNl (l2 :: ls)

/-- The buffer-level loop of `chunk_lines` (src/archive/app-v0.1.py
lines 270-283).  State: pending buffer `buf` and its running `size`;
a line that would push `size` past `maxChars` first flushes a
nonempty buffer.  Returns the chunks as line buffers; `chunk_lines`
joins each with newlines. -/
def chunkBuffers (maxChars : Nat) : List (List Char) → List (List Char) → Nat →
    List (List (List Char))
  | [], buf, _ => if buf = [] then [] else [buf]
  | ln :: rest, buf, size =>
    if maxChars < size + (truncLine ln).length + 1 ∧ buf ≠ [] then
      buf :: chunkBuffers maxChars rest [truncLine ln] ((truncLine ln).length + 1)
    else
      chunkBuffers maxChars rest (buf ++ [truncLine ln]) (size + (truncLine ln).length + 1)

/-- `chunk_lines` (src/archive/app-v0.1.py lines 270-283). -/
def chunk_lines (lines : List (List Char)) (maxChars : Nat) : List (List Char) :=
  (chunkBuffers maxChars lines [] 0).map joinNl

/-- The chunk predicate of the ceiling property: either the serialized
chunk fits under the ceiling, or the chunk is a single line. -/
def GoodBuf (maxChars : Nat) (c : List (List Char)) : Prop :=
  (joinNl c).length ≤ maxChars ∨ ∃ l, c = [l]

/-- Numeric value of an ASCII digit character. -/
def digitVal (c : Char) : Nat := c.toNat - '0'.toNat

def isDig (c : Char) : Bool := '0' ≤ c && c ≤ '9'

/-- The `%m` field of the strptime format: the regex alternatives
`1[0-2]|0[1-9]|[1-9]`, i.e. the month written with one or two digits. -/
def monthOfString : List Char → Option Nat
  | [c] => if '1' ≤ c && c ≤ '9' then some (digitVal c) else none
  | [c1, c2] =>
    if c1 = '0' && ('1' ≤ c2 && c2 ≤ '9') then some (digitVal c2)
    else if c1 = '1' && ('0' ≤ c2 && c2 ≤ '2') then some (10 + digitVal c2)
    else none
  | _ => none

/-- The `%d` field of the strptime format: the regex alternatives
`3[01]|[12]\d|0[1-9]|[1-9]`, i.e. a day number 1-31 with an optional
leading zero on single digits. -/
def dayOfString : List Char → Option Nat
  | [c] => if '1' ≤ c && c ≤ '9' then some (digitVal c) else none
  | [c1, c2] =>
    if c1 = '3' && (c2 = '0' || c2 = '1') then some (30 + digitVal c2)
    else if (c1 = '1' || c1 = '2') && isDig c2 then some (10 * digitVal c1 + digitVal c2)
    else if c1 = '0' && ('1' ≤ c2 && c2 ≤ '9') then some (digitVal c2)
    else none
  | _ => none

def isLeap (y : Nat) : Bool := y % 4 == 0 && (y % 100 != 0 || y % 400 == 0)

def daysInMonth (y m : Nat) : Nat :=
  if m = 2 then (if isLeap y then 29 else 28)
  else if m = 4 || m = 6 || m = 9 || m = 11 then 30
  else 31

/-- `datetime.strptime(s, percent-Y-m-d)`: exactly four digits for the
year, a dash, a month field, a dash, a day field reaching the end of
the string; the resulting calendar date must be valid (month length,
leap years) and the year at least `datetime.MINYEAR = 1`, otherwise
the call raises `ValueError`. -/
def parseYMD (s : List Char) : Option (Nat × Nat × Nat) :=
  match s with
  | c1 :: c2 :: c3 :: c4 :: '-' :: rest =>
    if isDig c1 && isDig c2 && isDig c3 && isDig c4 then
      let y := ((digitVal c1 * 10 + digitVal c2) * 10 + digitVal c3) * 10 + digitVal c4
      let mStr := rest.takeWhile (fun c => c ≠ '-')
      match rest.dropWhile (fun c => c ≠ '-') with
      | '-' :: dStr =>
        match monthOfString mStr, dayOfString dStr with
        | some m, some d =>
          if 1 ≤ y && d ≤ daysInMonth y m then some (y, m, d) else none
        | _, _ => none
      | _ => none
    else none
  | _ => none

/-- Day count of a civil date, measured from 0000-03-01 so the count
stays in `Nat` for every parseable date (year at least 1). -/
def daysFromCivilN (y m d : Nat) : Nat :=
  let yp := if m ≤ 2 then y - 1 else y
  let era := yp / 400
  let yoe := yp % 400
  let mp := if 2 < m then m - 3 else m + 9
  let doy := (153 * mp + 2) / 5 + d - 1
  let doe := yoe * 365 + yoe / 4 - yoe / 100 + doy
  era * 146097 + doe

/-- Inverse of `daysFromCivilN`: the civil date of a day count. -/
def civilFromDaysN (z : Nat) : Nat × Nat × Nat :=
  let era := z / 146097
  let doe := z % 146097
  let yoe := (doe - doe / 1460 + doe / 36524 - doe / 146096) / 365
  let y := yoe + era * 400
  let doy := doe - (365 * yoe + yoe / 4 - yoe / 100)
  let mp := (5 * doy + 2) / 153
  let d := doy - (153 * mp + 2) / 5 + 1
  let m := if mp < 10 then mp + 3 else mp - 9
  (if m ≤ 2 then y + 1 else y, m, d)

/-- Python `date.weekday()`: Monday is 0; 0000-03-01 was a Wednesday. -/
def pyWeekday (z : Nat) : Nat := (z + 2) % 7

def pad2 (n : Nat) : String := if n < 10 then "0" ++ toString n else toString n

def pad4 (n : Nat) : String :=
  if n < 10 then "000" ++ toString n
  else if n < 100 then "00" ++ toString n
  else if n < 1000 then "0" ++ toString n
  else toString n

/-- `strftime` with the Y-m-d format on the date of day count `z`. -/
def fmtDate (z : Nat) : String :=
  match civilFromDaysN z with
  | (y, m, d) => pad4 y ++ "-" ++ pad2 m ++ "-" ++ pad2 d

/-- `WhatsAppSummarizer.get_week_start_end` (src/app.py lines 345-362):
parse the reference date, step back to its Monday, and return the
Monday, the Sunday, and the exclusive query bound Monday-plus-seven;
a string that does not parse raises
`ValueError("Invalid date format. Use YYYY-MM-DD")`. -/
def get_week_start_end (s : String) : Except String (String × String × String) :=
  match parseYMD s.data with
  | none => Except.error "Invalid date format. Use YYYY-MM-DD"
  | some (y, m, d) =>
    let z := daysFromCivilN y m d
    let monday := z - pyWeekday z
    Except.ok (fmtDate monday, fmtDate (monday + 6), fmtDate (monday + 7))

/-- `GroupData` (src/app.py lines 26-32). -/
structure GroupData where
  group_name : String
  message_count : Nat
  participants : List String
  links : List String
  messages : List String
deriving DecidableEq

/-- `BubblePayload` (src/app.py lines 47-62).  `error_message` is
`Option String` because a Python field can in principle hold `None`;
the claims below establish that the constructed payload always carries
an actual string. -/
structure BubblePayload where
  summary_text : String
  week_start : String
  week_end : String
  total_messages : Nat
  total_groups : Nat
  total_participants : Nat
  total_links : Nat
  generation_timestamp : String
  status : String
  error_message : Option String
deriving DecidableEq

/-- Outcome of the external `session.post` call inside
`send_to_bubble` (src/app.py lines 611-651), as observed through the
except clauses of the source. -/
inductive PostOutcome where
  | posted
  | timeout
  | requestError (msg : String)
  | otherError (msg : String)
deriving DecidableEq

/-- External collaborators of one run: the database fetch keyed by the
window bounds, the per-batch model responses (`Except.error` is a
raised exception, `Except.ok` the response text), the Bubble endpoint
configuration, the HTTP post outcome, and the generation timestamp. -/
structure Env where
  fetch : String → String → Except String (List (String × GroupData))
  modelResponses : Nat → Except String String
  bubbleConfigured : Bool
  postOutcome : PostOutcome
  timestamp : String

/-- `WhatsAppSummarizer.send_to_bubble` (src/app.py lines 611-651):
returns `false` without posting when no endpoint is configured; posts
otherwise and converts every failure (timeout, request exception, any
other exception) into `false` instead of raising. -/
def send_to_bubble (endpointConfigured : Bool) (outcome : PostOutcome) : Bool :=
  if endpointConfigured = false then false
  else
    match outcome with
    | PostOutcome.posted => true
    | PostOutcome.timeout => false
    | PostOutcome.requestError _ => false
    | PostOutcome.otherError _ => false

/-- Python `s.strip()` on `String`. -/
def pyStripStr (s : String) : String := String.mk (pyStrip s.data)

/-- The suffix of `s` after its last dog emoji: Python
`s.split(dog)[-1]`. -/
def afterLastDog (s : List Char) : List Char :=
  (s.reverse.takeWhile (fun c => c ≠ '🐶')).reverse

/-- `group_name.split(dog)[-1].strip() or group_name`
(src/app.py line 452). -/
def groupShortName (name : String) : String :=
  if pyStrip (afterLastDog name.data) = [] then name
  else String.mk (pyStrip (afterLastDog name.data))

/-- The flattened `all_messages` list of
`prepare_weekly_message_data` (src/app.py lines 450-455): for each
group in insertion order, each kept message prefixed with the short
group name in brackets. -/
def allMessages (gs : List (String × GroupData)) : List String :=
  gs.flatMap (fun p => p.2.messages.map (fun m => "[" ++ groupShortName p.1 ++ "] " ++ m))

/-- Fuel-driven worker for `sliceBatches`; the fuel is an upper bound
on the number of batches, so `length msgs` always suffices. -/
def sliceGo : Nat → List String → List (List String)
  | 0, _ => []
  | _, [] => []
  | fuel + 1, msgs => msgs.take 150 :: sliceGo fuel (msgs.drop 150)

/-- The batching loop of `prepare_weekly_message_data` (src/app.py
lines 459-463): `all_messages[i:i+batch_size]` for `i` in
`range(0, len(all_messages), batch_size)` with `batch_size = 150`. -/
def sliceBatches (msgs : List String) : List (List String) :=
  sliceGo msgs.length msgs

/-- `_generate_fallback_summary` (src/app.py lines 586-609): the
template digest used whenever the model pipeline cannot complete. -/
def generateFallbackSummary (gs : List (String × GroupData)) (weekStart weekEnd : String) :
    String :=
  "# thePack.in Pet Parent\x27s Community | Weekly Summary: " ++ weekStart ++ " to " ++
  weekEnd ++
  "\n\n## This week in 60 seconds\nThis week, our community of " ++
  toString gs.length ++ " groups shared " ++
  toString ((gs.map (fun p => p.2.message_count)).sum) ++
  " messages about pet care and support. Pet parents actively discussed their experiences and sought advice from the community." ++
  "\n\n## Top 3 issues faced by pet parents in India\nDue to a technical error, detailed analysis is not available this week. Please check back next week." ++
  "\n\n## New things that Pet Parents Tried this Week\nAnalysis pending due to technical issues." ++
  "\n\n## What pet parents are reading at thePack\nAnalysis pending due to technical issues." ++
  "\n\n## Safety Note\nIf your dog shows urgent signs like blood in stool, high fever, or extreme lethargy, visit your vet immediately." ++
  "\n\n---\n*Do you have questions about your dog? Reply in your WhatsApp group or email me on shobhit@thepack.in*\n"

/-- The batch loop of `generate_editorial_summary` (src/app.py lines
489-580) observed through its effect on the returned summary: each
batch issues one model call whose raised exception aborts the loop;
only the final batch response becomes the editorial summary, which is
stripped and rejected as `ValueError("Generated summary is too short
or empty")` when empty or under 100 characters.  The first argument
counts the remaining batches, the second is the index of the current
batch. -/
def runBatchLoop (resp : Nat → Except String String) (i : Nat) : Nat → Except String String
  | 0 => Except.error "no batches"
  | 1 =>
    match resp i with
    | Except.error e => Except.error e
    | Except.ok s =>
      if pyStripStr s = "" ∨ (pyStripStr s).length < 100 then
        Except.error "Generated summary is too short or empty"
      else Except.ok (pyStripStr s)
  | k + 2 =>
    match resp i with
    | Except.error e => Except.error e
    | Except.ok _ => runBatchLoop resp (i + 1) (k + 1)

/-- `generate_editorial_summary` (src/app.py lines 482-584).  With zero
batches the Python loop never assigns `editorial_summary` and the
validation line raises an unbound-local error, re-raised by the
catch-all; with at least one batch the loop runs as `runBatchLoop`.
The `ws`/`we` arguments only feed the prompt text, which the model
oracle abstracts. -/
def generate_editorial_summary (env : Env) (gs : List (String × GroupData))
    (ws we : String) : Except String String :=
  if (sliceBatches (allMessages gs)).length = 0 then
    Except.error "cannot access local variable editorial_summary where it is not associated with a value"
  else runBatchLoop env.modelResponses 0 (sliceBatches (allMessages gs)).length

/-- The state left by the `try`/`except` part of `process_week`
(src/app.py lines 672-705): the error message, the summary, and the
values of `groups_data`, `week_start`, `week_end` at the end of the
handler. -/
structure Phase1State where
  errorMessage : Option String
  editorialSummary : Option String
  groupsData : List (String × GroupData)
  weekStart : String
  weekEnd : String

/-- The `try` block of `process_week` with its `except` handler
(src/app.py lines 677-705).  A parse failure leaves `groups_data`
empty and the week bounds as the empty strings they were initialized
to; a fetch failure leaves `groups_data` empty; an empty fetch sets
the error message `"No data found for this week"` and takes the
fallback; a generation failure takes the fallback over the fetched
groups. -/
def runPhase1 (start_date : String) (env : Env) : Phase1State :=
  match get_week_start_end start_date with
  | Except.error e =>
    ⟨some e, some (generateFallbackSummary [] "" ""), [], "", ""⟩
  | Except.ok (ws, we, weq) =>
    match env.fetch ws weq with
    | Except.error e =>
      ⟨some e, some (generateFallbackSummary [] ws we), [], ws, we⟩
    | Except.ok gs =>
      if gs.isEmpty then
        ⟨some "No data found for this week",
          some (generateFallbackSummary [] ws we), gs, ws, we⟩
      else
        match generate_editorial_summary env gs ws we with
        | Except.error e =>
          ⟨some e, some (generateFallbackSummary gs ws we), gs, ws, we⟩
        | Except.ok s => ⟨none, some s, gs, ws, we⟩

/-- Result of one `process_week` run: the payload built in the
`finally` block, the payload handed to `send_to_bubble` (the `finally`
block always runs, so it is always the built payload), the boolean
returned by `send_to_bubble`, and the boolean `error_message is None`
that `process_week` returns. -/
structure RunResult where
  payload : BubblePayload
  deliveredPayload : Option BubblePayload
  bubbleSuccess : Bool
  returnedSuccess : Bool

/-- `WhatsAppSummarizer.process_week` (src/app.py lines 667-739): run
the try/except phase, then in `finally` build the `BubblePayload`
exactly as lines 713-724 do (`editorial_summary or "Failed to generate
summary"`, `week_start or start_date`, counters summed over
`groups_data`, status `"success"` only for a falsy error message, the
error field defaulted to the empty string) and hand it to
`send_to_bubble`; finally return `error_message is None`. -/
def process_week (start_date : String) (env : Env) : RunResult :=
  let st := runPhase1 start_date env
  let payload : BubblePayload :=
    { summary_text :=
        match st.editorialSummary with
        | none => "Failed to generate summary"
        | some s => if s = "" then "Failed to generate summary" else s
      week_start := if st.weekStart = "" then start_date else st.weekStart
      week_end := if st.weekEnd = "" then start_date else st.weekEnd
      total_messages := (st.groupsData.map (fun p => p.2.message_count)).sum
      total_groups := st.groupsData.length
      total_participants := 0
      total_links := (st.groupsData.map (fun p => p.2.links.length)).sum
      generation_timestamp := env.timestamp
      status :=
        match st.errorMessage with
        | none => "success"
        | some e => if e = "" then "success" else "error"
      error_message := some (st.errorMessage.getD "") }
  { payload := payload
    deliveredPayload := some payload
    bubbleSuccess := send_to_bubble env.bubbleConfigured env.postOutcome
    returnedSuccess := st.errorMessage.isNone }

/-- `main` (src/app.py lines 741-765): exit code 0 when `process_week`
returned `True`, 1 otherwise. -/
def mainExitCode (start_date : String) (env : Env) : Nat :=
  if (process_week start_date env).returnedSuccess then 0 else 1

/-- A run environment whose data fetch returns zero rows and whose
delivery endpoint is configured. -/
def envEmptyFetch : Env :=
  { fetch := fun _ _ => Except.ok []
    modelResponses := fun _ => Except.error "model not called"
    bubbleConfigured := true
    postOutcome := PostOutcome.posted
    timestamp := "2025-08-12T00:00:00" }

/-- One fetched group holding a single message. -/
def gOne : GroupData :=
  { group_name := "Indie Parents Pack 1"
    message_count := 1
    participants := []
    links := []
    messages := ["hello"] }

/-- A fully successful run environment: one group, one batch, a model
response longer than 100 characters. -/
def envOneGroup : Env :=
  { fetch := fun _ _ => Except.ok [("Indie Parents Pack 1", gOne)]
    modelResponses := fun _ => Except.ok (String.mk (List.replicate 120 'a'))
    bubbleConfigured := true
    postOutcome := PostOutcome.posted
    timestamp := "t" }

/-- A run environment whose final model call succeeds but returns a
5-character response. -/
def envShortModel : Env :=
  { fetch := fun _ _ => Except.ok [("Indie Parents Pack 1", gOne)]
    modelResponses := fun _ => Except.ok "short"
    bubbleConfigured := true
    postOutcome := PostOutcome.posted
    timestamp := "t" }

lemma dropWhile_idem (p : α → Bool) (l : List α) :
    (l.dropWhile p).dropWhile p = l.dropWhile p := by
  induction l with
  | nil => rfl
  | cons c t ih =>
    by_cases h : p c
    · rw [List.dropWhile_cons_of_pos h, ih]
    · rw [List.dropWhile_cons_of_neg h, List.dropWhile_cons_of_neg h]

lemma dropWhile_head_false (p : α → Bool) (l : List α) (c : α) (t : List α)
    (h : l.dropWhile p = c :: t) : p c = false := by
  induction l with
  | nil => simp [List.dropWhile] at h
  | cons a l ih =>
    by_cases ha : p a
    · rw [List.dropWhile_cons_of_pos ha] at h
      exact ih h
    · rw [List.dropWhile_cons_of_neg ha] at h
      cases h
      exact eq_false_of_ne_true ha

lemma mem_pyStrip (s : List Char) (c : Char) (h : c ∈ pyStrip s) : c ∈ s := by
  unfold pyStrip at h
  rw [List.mem_reverse] at h
  have h1 := (List.dropWhile_sublist (l := (s.dropWhile isPySpace).reverse)
    (p := isPySpace)).mem h
  rw [List.mem_reverse] at h1
  exact (List.dropWhile_sublist (l := s) (p := isPySpace)).mem h1

/-- The right-strip (`dropWhile` over the reversal) returns a prefix of
its argument. -/
lemma rstrip_prefix (p : α → Bool) (l : List α) :
    List.IsPrefix ((l.reverse.dropWhile p).reverse) l := by
  have h : List.IsSuffix (l.reverse.dropWhile p) l.reverse :=
    List.dropWhile_suffix p
  have h2 : List.IsPrefix ((l.reverse.dropWhile p).reverse) l.reverse.reverse :=
    List.reverse_prefix.mpr h
  simpa using h2

/-- The fully stripped list has no leading whitespace. -/
lemma pyStrip_drop (s : List Char) :
    (pyStrip s).dropWhile isPySpace = pyStrip s := by
  cases hzc : pyStrip s with
  | nil => rfl
  | cons c t =>
    have hpre : List.IsPrefix (pyStrip s) (s.dropWhile isPySpace) := by
      unfold pyStrip
      exact rstrip_prefix isPySpace (s.dropWhile isPySpace)
    rw [hzc] at hpre
    rcases hpre with ⟨r, hr⟩
    have hcfalse : isPySpace c = false := by
      apply dropWhile_head_false isPySpace s c (t ++ r)
      rw [← hr]
      rfl
    rw [List.dropWhile_cons_of_neg (by simp [hcfalse])]

lemma pyStrip_idem (s : List Char) : pyStrip (pyStrip s) = pyStrip s := by
  have h1 : pyStrip (pyStrip s) = ((pyStrip s).reverse.dropWhile isPySpace).reverse := by
    show (((pyStrip s).dropWhile isPySpace).reverse.dropWhile isPySpace).reverse = _
    rw [pyStrip_drop]
  rw [h1]
  unfold pyStrip
  rw [List.reverse_reverse, dropWhile_idem]

/-- C5: sanitization is idempotent.  `remove_emojis` filters the emoji
character class out and strips the remainder: applying it twice equals
applying it once, so sanitizing already-sanitized text is a no-op. -/
theorem remove_emojis_idempotent (s : List Char) :
    remove_emojis (remove_emojis s) = remove_emojis s := by
  unfold remove_emojis
  have hfilter : (pyStrip (s.filter (fun c => !isEmojiChar c))).filter
      (fun c => !isEmojiChar c) = pyStrip (s.filter (fun c => !isEmojiChar c)) := by
    apply List.filter_eq_self.mpr
    intro a ha
    exact (List.mem_filter.mp (mem_pyStrip _ a ha)).2
  rw [hfilter, pyStrip_idem]

/-- Flushing invariant of `tokensAux`: with a whitespace-free pending
run, every emitted token is nonempty and whitespace-free. -/
lemma tokensAux_sound (s : List Char) :
    ∀ acc, (∀ c ∈ acc, isPySpace c = false) →
      ∀ w ∈ tokensAux acc s, w ≠ [] ∧ ∀ c ∈ w, isPySpace c = false := by
  induction s with
  | nil =>
    intro acc hacc w hw
    by_cases ha : acc = []
    · simp [tokensAux, ha] at hw
    · rw [tokensAux, if_neg ha] at hw
      rcases List.mem_singleton.mp hw with rfl
      refine ⟨by simpa using ha, ?_⟩
      intro c hc
      exact hacc c (List.mem_reverse.mp hc)
  | cons c rest ih =>
    intro acc hacc w hw
    by_cases hsp : isPySpace c
    · rw [tokensAux, if_pos hsp] at hw
      by_cases ha : acc = []
      · rw [if_pos ha] at hw
        exact ih [] (by simp) w hw
      · rw [if_neg ha] at hw
        rcases List.mem_cons.mp hw with rfl | hw
        · refine ⟨by simpa using ha, ?_⟩
          intro x hx
          exact hacc x (List.mem_reverse.mp hx)
        · exact ih [] (by simp) w hw
    · rw [tokensAux, if_neg hsp] at hw
      refine ih (c :: acc) ?_ w hw
      intro x hx
      rcases List.mem_cons.mp hx with rfl | hx
      · exact eq_false_of_ne_true hsp
      · exact hacc x hx

/-- Every token produced by the tokenizer is nonempty and free of
whitespace. -/
lemma pyTokens_sound (s : List Char) :
    ∀ w ∈ pyTokens s, w ≠ [] ∧ ∀ c ∈ w, isPySpace c = false :=
  tokensAux_sound s [] (by simp)

/-- Running the splitter through a whitespace-free run extends the
pending token. -/
lemma tokensAux_through_word (w : List Char) (hfree : ∀ c ∈ w, isPySpace c = false) :
    ∀ (acc : List Char) (rest : List Char),
      tokensAux acc (w ++ rest) = tokensAux (w.reverse ++ acc) rest := by
  induction w with
  | nil => intro acc rest; rfl
  | cons c t ih =>
    intro acc rest
    rw [List.cons_append, tokensAux, if_neg (by simp [hfree c (by simp)])]
    rw [ih (fun x hx => hfree x (by simp [hx])) (c :: acc) rest]
    simp

/-- A nonempty whitespace-free token followed by a space: the splitter
peels it off whole. -/
lemma pyTokens_word_space (w rest : List Char) (hne : w ≠ [])
    (hfree : ∀ c ∈ w, isPySpace c = false) :
    pyTokens (w ++ ' ' :: rest) = w :: pyTokens rest := by
  unfold pyTokens
  rw [tokensAux_through_word w hfree [] (' ' :: rest)]
  rw [tokensAux, if_pos (by simp [isPySpace]),
    if_neg (by simpa using hne)]
  simp

/-- A single nonempty whitespace-free run is one token. -/
lemma pyTokens_single (w : List Char) (hne : w ≠ [])
    (hfree : ∀ c ∈ w, isPySpace c = false) :
    pyTokens w = [w] := by
  unfold pyTokens
  have h := tokensAux_through_word w hfree [] []
  rw [List.append_nil] at h
  rw [h, tokensAux, if_neg (by simpa using hne)]
  simp

lemma joinSpace_cons_cons (w v : List Char) (ws : List (List Char)) :
    joinSpace (w :: v :: ws) = w ++ ' ' :: joinSpace (v :: ws) := rfl

/-- Tokenizing a space-joined list of nonempty whitespace-free words
with the marker glued to the last word yields exactly one token per
word: the marker attaches to the final token instead of opening a new
one. -/
lemma pyTokens_joinSpace_marker (ws : List (List Char))
    (hws : ∀ w ∈ ws, w ≠ [] ∧ ∀ c ∈ w, isPySpace c = false) (hne : ws ≠ []) :
    (pyTokens (joinSpace ws ++ ['…'])).length = ws.length := by
  induction ws with
  | nil => exact absurd rfl hne
  | cons w t ih =>
    cases t with
    | nil =>
      show (pyTokens (w ++ ['…'])).length = 1
      rw [pyTokens_single (w ++ ['…']) (by simp) ?_]
      · rfl
      · intro c hc
        rcases List.mem_append.mp hc with hc | hc
        · exact (hws w (by simp)).2 c hc
        · rcases List.mem_singleton.mp hc with rfl
          decide
    | cons v t2 =>
      rw [joinSpace_cons_cons, List.append_assoc, List.cons_append]
      rw [pyTokens_word_space w _ (hws w (by simp)).1 (hws w (by simp)).2]
      rw [List.length_cons]
      rw [ih (fun x hx => hws x (by simp [hx])) (by simp)]
      rfl

/-- C2: word-ceiling enforcement.  For any raw model output, the
clamped narrative has at most `TARGET_WORDS_HIGH` whitespace-delimited
tokens, and whenever the raw output exceeded the ceiling the clamped
text ends with the continuation marker.  `clamp_words` is a pure local
function of the text, independent of the model. -/
theorem narrative_word_ceiling (t : List Char) :
    word_count (clamp_words t TARGET_WORDS_HIGH) ≤ TARGET_WORDS_HIGH ∧
    (TARGET_WORDS_HIGH < word_count t →
      List.IsSuffix ['…'] (clamp_words t TARGET_WORDS_HIGH)) := by
  unfold word_count clamp_words TARGET_WORDS_HIGH
  by_cases h : (pyTokens t).length ≤ 300
  · rw [if_pos h]
    exact ⟨h, fun hlt => absurd h (by omega)⟩
  · rw [if_neg h]
    push_neg at h
    constructor
    · have hlen : ((pyTokens t).take 300).length = 300 := by
        rw [List.length_take]
        omega
      have hsound : ∀ w ∈ (pyTokens t).take 300,
          w ≠ [] ∧ ∀ c ∈ w, isPySpace c = false := fun w hw =>
        pyTokens_sound t w ((List.take_sublist 300 (pyTokens t)).mem hw)
      have hnil : (pyTokens t).take 300 ≠ [] := by
        intro hn
        rw [hn] at hlen
        simp at hlen
      rw [pyTokens_joinSpace_marker _ hsound hnil, hlen]
    · intro _
      exact ⟨joinSpace ((pyTokens t).take 300), rfl⟩

lemma pyTokens_replicate_a (n : Nat) :
    pyTokens (joinSpace (List.replicate (n + 1) ['a'])) = List.replicate (n + 1) ['a'] := by
  induction n with
  | zero =>
    show pyTokens ['a'] = [['a']]
    exact pyTokens_single ['a'] (by simp) (by decide)
  | succ n ih =>
    rw [List.replicate_succ]
    rw [List.replicate_succ (n := n)]
    rw [joinSpace_cons_cons]
    rw [pyTokens_word_space ['a'] _ (by simp) (by decide)]
    rw [← List.replicate_succ (n := n)]
    rw [ih]

/-- Witness for `narrative_word_ceiling` on a text of 301 words. -/
theorem narrative_word_ceiling_witness :
    word_count (clamp_words manyWords TARGET_WORDS_HIGH) ≤ TARGET_WORDS_HIGH ∧
    List.IsSuffix ['…'] (clamp_words manyWords TARGET_WORDS_HIGH) :=
  ⟨(narrative_word_ceiling manyWords).1,
   (narrative_word_ceiling manyWords).2 (by
     show TARGET_WORDS_HIGH < word_count manyWords
     rw [word_count, manyWords, pyTokens_replicate_a 300, List.length_replicate]
     simp only [TARGET_WORDS_HIGH]
     omega)⟩

lemma szOf_cons (l : List Char) (t : List (List Char)) :
    szOf (l :: t) = l.length + 1 + szOf t := by
  simp only [szOf, List.map_cons, List.sum_cons]

lemma joinNl_length (buf : List (List Char)) (h : buf ≠ []) :
    (joinNl buf).length + 1 = szOf buf := by
  induction buf with
  | nil => exact absurd rfl h
  | cons l t ih =>
    cases t with
    | nil => simp [joinNl, szOf]
    | cons l2 t2 =>
      show (l ++ '\n' :: joinNl (l2 :: t2)).length + 1 = szOf (l :: l2 :: t2)
      have ih2 := ih (by simp)
      rw [szOf_cons, ← ih2]
      simp only [List.length_append, List.length_cons]
      omega

lemma szOf_append_one (buf : List (List Char)) (l : List Char) :
    szOf (buf ++ [l]) = szOf buf + (l.length + 1) := by
  simp [szOf]

/-- Loop invariant of `chunkBuffers`: if the pending buffer is empty or
good, every emitted chunk is good. -/
lemma chunkBuffers_good (maxChars : Nat) :
    ∀ (lines buf : List (List Char)), (buf = [] ∨ GoodBuf maxChars buf) →
      ∀ c ∈ chunkBuffers maxChars lines buf (szOf buf), GoodBuf maxChars c := by
  intro lines
  induction lines with
  | nil =>
    intro buf hbuf c hc
    by_cases hb : buf = []
    · rw [chunkBuffers, if_pos hb] at hc
      simp at hc
    · rw [chunkBuffers, if_neg hb] at hc
      rcases List.mem_singleton.mp hc with rfl
      exact hbuf.resolve_left hb
  | cons ln rest ih =>
    intro buf hbuf c hc
    rw [chunkBuffers] at hc
    by_cases hcond : maxChars < szOf buf + (truncLine ln).length + 1 ∧ buf ≠ []
    · rw [if_pos hcond] at hc
      rcases List.mem_cons.mp hc with rfl | hc
      · exact hbuf.resolve_left hcond.2
      · have hsz : (truncLine ln).length + 1 = szOf [truncLine ln] := by
          simp [szOf]
        rw [hsz] at hc
        exact ih [truncLine ln] (Or.inr (Or.inr ⟨truncLine ln, rfl⟩)) c hc
    · rw [if_neg hcond] at hc
      have hsz : szOf buf + (truncLine ln).length + 1 = szOf (buf ++ [truncLine ln]) := by
        rw [szOf_append_one]
        omega
      rw [hsz] at hc
      refine ih (buf ++ [truncLine ln]) ?_ c hc
      by_cases hb : buf = []
      · subst hb
        exact Or.inr (Or.inr ⟨truncLine ln, rfl⟩)
      · have hle : szOf buf + (truncLine ln).length + 1 ≤ maxChars := by
          rcases not_and_or.mp hcond with h | h
          · omega
          · exact absurd hb (by simpa using h)
        have hj := joinNl_length (buf ++ [truncLine ln]) (by simp)
        rw [szOf_append_one] at hj
        exact Or.inr (Or.inl (by omega))

/-- C4: every chunk produced by `chunk_lines` serializes to at most the
configured character ceiling, except a chunk holding a single line
whose own length exceeds the ceiling, which stands alone rather than
being split.  Chunks are given as their line buffers; `joinNl` is the
serialization that `chunk_lines` appends. -/
theorem batch_size_ceiling (lines : List (List Char)) (maxChars : Nat)
    (chunk : List (List Char)) (hmem : chunk ∈ chunkBuffers maxChars lines [] 0) :
    (joinNl chunk).length ≤ maxChars ∨ ∃ ln, chunk = [ln] ∧ maxChars < ln.length := by
  have hg := chunkBuffers_good maxChars lines [] (Or.inl rfl) chunk hmem
  rcases hg with h | ⟨l, rfl⟩
  · exact Or.inl h
  · by_cases hl : l.length ≤ maxChars
    · exact Or.inl (by simpa [joinNl] using hl)
    · exact Or.inr ⟨l, rfl, by omega⟩

/-- Witness for `batch_size_ceiling`: two one-character lines under a
small ceiling form a single chunk. -/
theorem batch_size_ceiling_witness :
    (joinNl [['a'], ['b']]).length ≤ 10 ∨ ∃ ln, [['a'], ['b']] = [ln] ∧ 10 < ln.length :=
  batch_size_ceiling [['a'], ['b']] 10 [['a'], ['b']] (by decide)

/-- C6: the window computation on the Wednesday 2025-08-06 returns the
Monday 2025-08-04 as `week_start`, the Sunday 2025-08-10 as the
inclusive display end, and 2025-08-11 as `week_end_query`, the
exclusive bound of the half-open interval used by the data query. -/
theorem window_literal_2025_08_06 :
    get_week_start_end "2025-08-06" =
      Except.ok ("2025-08-04", "2025-08-10", "2025-08-11") := rfl

lemma sliceGo_flatten :
    ∀ (fuel : Nat) (msgs : List String), msgs.length ≤ fuel →
      (sliceGo fuel msgs).flatten = msgs := by
  intro fuel
  induction fuel with
  | zero =>
    intro msgs h
    have hnil : msgs = [] := List.eq_nil_of_length_eq_zero (Nat.le_zero.mp h)
    subst hnil
    rfl
  | succ fuel ih =>
    intro msgs h
    cases msgs with
    | nil => rfl
    | cons m rest =>
      show ((m :: rest).take 150 :: sliceGo fuel ((m :: rest).drop 150)).flatten = m :: rest
      rw [List.flatten_cons, ih ((m :: rest).drop 150) ?_, List.take_append_drop]
      rw [List.length_drop]
      simp only [List.length_cons] at h ⊢
      omega

/-- C3: batch reconstruction.  Concatenating the message slices of all
batches produced by the batching loop, in batch order, yields exactly
the flattened message list given to it; in particular this holds for
the `all_messages` stream that `prepare_weekly_message_data` builds
from the fetched groups. -/
theorem batch_reconstruction (gs : List (String × GroupData)) (msgs : List String) :
    (sliceBatches msgs).flatten = msgs ∧
    (sliceBatches (allMessages gs)).flatten = allMessages gs :=
  ⟨sliceGo_flatten msgs.length msgs (Nat.le_refl _),
   sliceGo_flatten (allMessages gs).length (allMessages gs) (Nat.le_refl _)⟩

lemma sliceBatches_length_pos (msgs : List String) (h : msgs ≠ []) :
    0 < (sliceBatches msgs).length := by
  cases msgs with
  | nil => exact absurd rfl h
  | cons m rest => simp [sliceBatches, sliceGo]

lemma generateFallbackSummary_ne_empty (gs : List (String × GroupData)) (ws we : String) :
    generateFallbackSummary gs ws we ≠ "" := by
  intro h
  have hl := congrArg String.length h
  simp only [generateFallbackSummary, String.length_append] at hl
  have h1 : 0 <
      ("# thePack.in Pet Parent\x27s Community | Weekly Summary: " : String).length := by
    decide
  have h0 : ("" : String).length = 0 := rfl
  rw [h0] at hl
  omega

lemma runBatchLoop_short (resp : Nat → Except String String) (sfin : String)
    (hok : ∀ j, ∃ s, resp j = Except.ok s)
    (hshort : pyStripStr sfin = "" ∨ (pyStripStr sfin).length < 100) :
    ∀ (k i : Nat), resp (i + k) = Except.ok sfin →
      runBatchLoop resp i (k + 1) =
        Except.error "Generated summary is too short or empty" := by
  intro k
  induction k with
  | zero =>
    intro i hfin
    rw [Nat.add_zero] at hfin
    unfold runBatchLoop
    rw [hfin]
    show (if pyStripStr sfin = "" ∨ (pyStripStr sfin).length < 100 then
        Except.error "Generated summary is too short or empty"
      else Except.ok (pyStripStr sfin)) = _
    rw [if_pos hshort]
  | succ k ih =>
    intro i hfin
    obtain ⟨s, hs⟩ := hok i
    show runBatchLoop resp i (k + 2) = _
    unfold runBatchLoop
    rw [hs]
    apply ih (i + 1)
    rw [← hfin]
    congr 1
    omega

/-- C10: a final-batch model call that returns successfully but with a
stripped output shorter than 100 characters makes
`generate_editorial_summary` raise `"Generated summary is too short or
empty"`; `process_week` then substitutes the template fallback digest,
marks the run status `"error"`, and `main` exits with code 1 — the
same public outcome as a failed model call. -/
theorem short_summary_error_run (d ws we weq sfin : String) (env : Env)
    (gs : List (String × GroupData))
    (hdate : get_week_start_end d = Except.ok (ws, we, weq))
    (hfetch : env.fetch ws weq = Except.ok gs)
    (hne : gs.isEmpty = false)
    (hmsgs : allMessages gs ≠ [])
    (hok : ∀ j, ∃ s, env.modelResponses j = Except.ok s)
    (hfin : env.modelResponses ((sliceBatches (allMessages gs)).length - 1) =
      Except.ok sfin)
    (hshort : (pyStripStr sfin).length < 100) :
    generate_editorial_summary env gs ws we =
      Except.error "Generated summary is too short or empty" ∧
    (process_week d env).payload.status = "error" ∧
    (process_week d env).payload.summary_text = generateFallbackSummary gs ws we ∧
    (process_week d env).payload.error_message =
      some "Generated summary is too short or empty" ∧
    mainExitCode d env = 1 := by
  have hn : 0 < (sliceBatches (allMessages gs)).length :=
    sliceBatches_length_pos (allMessages gs) hmsgs
  obtain ⟨k, hk⟩ : ∃ k, (sliceBatches (allMessages gs)).length = k + 1 :=
    ⟨(sliceBatches (allMessages gs)).length - 1, by omega⟩
  rw [hk] at hfin
  have hfin2 : env.modelResponses (0 + k) = Except.ok sfin := by
    rw [Nat.zero_add]
    exact hfin
  have hgen : generate_editorial_summary env gs ws we =
      Except.error "Generated summary is too short or empty" := by
    unfold generate_editorial_summary
    rw [hk, if_neg (by omega)]
    exact runBatchLoop_short env.modelResponses sfin hok (Or.inr hshort) k 0 hfin2
  have hphase : runPhase1 d env =
      ⟨some "Generated summary is too short or empty",
        some (generateFallbackSummary gs ws we), gs, ws, we⟩ := by
    simp only [runPhase1, hdate, hfetch, hne, hgen]
    rfl
  refine ⟨hgen, ?_, ?_, ?_, ?_⟩
  · simp only [process_week, hphase]
    rw [if_neg (by decide)]
  · simp only [process_week, hphase]
    rw [if_neg (generateFallbackSummary_ne_empty gs ws we)]
  · simp only [process_week, hphase]
    rfl
  · simp only [mainExitCode, process_week, hphase]
    rfl

/-- Witness for `short_summary_error_run` on a concrete one-group run
whose model returns the 5-character string `"short"`. -/
theorem short_summary_error_run_witness :
    mainExitCode "2025-08-06" envShortModel = 1 :=
  (short_summary_error_run "2025-08-06" "2025-08-04" "2025-08-10" "2025-08-11" "short"
    envShortModel [("Indie Parents Pack 1", gOne)] rfl rfl rfl (by decide)
    (fun _ => ⟨"short", rfl⟩) rfl (by decide)).2.2.2.2

/-- C1 counterexample: on the Wednesday 2025-08-06 with a fetch that
returns zero rows and no fetch error, `process_week` sets the payload
status to `"error"` (because the empty corpus branch assigns the error
message `"No data found for this week"`), not `"success"` as the claim
states. -/
theorem empty_corpus_status_counterexample :
    (process_week "2025-08-06" envEmptyFetch).payload.status = "error" ∧
    (process_week "2025-08-06" envEmptyFetch).payload.status ≠ "success" := by
  refine ⟨rfl, ?_⟩
  intro h
  exact absurd (rfl.trans h) (by decide)

/-- C1 (amended): a run whose fetch returns zero rows without raising
produces the fallback digest with all counters at 0, but records the
error message `"No data found for this week"`, hence status
`"error"`; the payload is still always handed to delivery. -/
theorem empty_corpus_fallback_run (d ws we weq : String) (env : Env)
    (hdate : get_week_start_end d = Except.ok (ws, we, weq))
    (hfetch : env.fetch ws weq = Except.ok []) :
    (process_week d env).payload.total_messages = 0 ∧
    (process_week d env).payload.total_groups = 0 ∧
    (process_week d env).payload.total_links = 0 ∧
    (process_week d env).payload.status = "error" ∧
    (process_week d env).payload.error_message = some "No data found for this week" ∧
    (process_week d env).payload.summary_text = generateFallbackSummary [] ws we ∧
    (process_week d env).deliveredPayload = some (process_week d env).payload := by
  have hphase : runPhase1 d env =
      ⟨some "No data found for this week",
        some (generateFallbackSummary [] ws we), [], ws, we⟩ := by
    simp only [runPhase1, hdate, hfetch]
    rfl
  refine ⟨?_, ?_, ?_, ?_, ?_, ?_, rfl⟩
  · simp only [process_week, hphase]
    rfl
  · simp only [process_week, hphase]
    rfl
  · simp only [process_week, hphase]
    rfl
  · simp only [process_week, hphase]
    rw [if_neg (by decide)]
  · simp only [process_week, hphase]
    rfl
  · simp only [process_week, hphase]
    rw [if_neg (generateFallbackSummary_ne_empty [] ws we)]

/-- Witness for `empty_corpus_fallback_run` at the concrete reference
date 2025-08-06 and the zero-row fetch environment. -/
theorem empty_corpus_fallback_run_witness :
    (process_week "2025-08-06" envEmptyFetch).payload.total_messages = 0 :=
  (empty_corpus_fallback_run "2025-08-06" "2025-08-04" "2025-08-10" "2025-08-11"
    envEmptyFetch rfl rfl).1

/-- C7 counterexample: on the unparseable input `"not-a-date"` the
window computation does raise the InvalidDateFormat error, but the run
does not abort: `process_week` catches it, builds the fallback digest
payload, hands it to delivery, and `main` exits with code 1. -/
theorem invalid_date_abort_counterexample :
    get_week_start_end "not-a-date" =
      Except.error "Invalid date format. Use YYYY-MM-DD" ∧
    (process_week "not-a-date" envEmptyFetch).deliveredPayload =
      some (process_week "not-a-date" envEmptyFetch).payload ∧
    (process_week "not-a-date" envEmptyFetch).payload.summary_text =
      generateFallbackSummary [] "" "" ∧
    mainExitCode "not-a-date" envEmptyFetch = 1 := by
  refine ⟨rfl, rfl, ?_, rfl⟩
  rw [show (process_week "not-a-date" envEmptyFetch).payload.summary_text =
    (if generateFallbackSummary [] "" "" = "" then "Failed to generate summary"
      else generateFallbackSummary [] "" "") from rfl]
  rw [if_neg (generateFallbackSummary_ne_empty [] "" "")]

/-- C7 (amended): every input that fails to parse as a calendar date
makes `get_week_start_end` fail with the InvalidDateFormat message,
but the error is not fatal to the run: `process_week` catches it,
produces a fallback payload with status `"error"` carrying the parse
error message, still attempts delivery, and the run exits with
code 1. -/
theorem invalid_date_fallback_run (d : String) (env : Env)
    (hbad : parseYMD d.data = none) :
    get_week_start_end d = Except.error "Invalid date format. Use YYYY-MM-DD" ∧
    (process_week d env).payload.status = "error" ∧
    (process_week d env).payload.error_message =
      some "Invalid date format. Use YYYY-MM-DD" ∧
    (process_week d env).deliveredPayload = some (process_week d env).payload ∧
    mainExitCode d env = 1 := by
  have herr : get_week_start_end d =
      Except.error "Invalid date format. Use YYYY-MM-DD" := by
    unfold get_week_start_end
    rw [hbad]
  have hphase : runPhase1 d env =
      ⟨some "Invalid date format. Use YYYY-MM-DD",
        some (generateFallbackSummary [] "" ""), [], "", ""⟩ := by
    simp only [runPhase1, herr]
  refine ⟨herr, ?_, ?_, rfl, ?_⟩
  · simp only [process_week, hphase]
    rw [if_neg (by decide)]
  · simp only [process_week, hphase]
    rfl
  · simp only [mainExitCode, process_week, hphase]
    rfl

/-- Witness for `invalid_date_fallback_run` at the concrete input
`"not-a-date"`. -/
theorem invalid_date_fallback_run_witness :
    mainExitCode "not-a-date" envOneGroup = 1 :=
  (invalid_date_fallback_run "not-a-date" envOneGroup rfl).2.2.2.2

/-- C8: in every run, whatever state the pipeline ends in, the
`finally` block builds a payload and hands exactly that payload to
`send_to_bubble`; `send_to_bubble` returns a plain boolean, converting
each of its failure modes (missing endpoint, timeout, request
exception, any other exception) to `false` instead of raising. -/
theorem delivery_always_attempted (d : String) (env : Env) (cfg : Bool)
    (m1 m2 : String) :
    (process_week d env).deliveredPayload = some (process_week d env).payload ∧
    (process_week d env).bubbleSuccess =
      send_to_bubble env.bubbleConfigured env.postOutcome ∧
    send_to_bubble cfg PostOutcome.timeout = false ∧
    send_to_bubble cfg (PostOutcome.requestError m1) = false ∧
    send_to_bubble cfg (PostOutcome.otherError m2) = false ∧
    send_to_bubble false env.postOutcome = false := by
  refine ⟨rfl, rfl, ?_, ?_, ?_, rfl⟩ <;> cases cfg <;> rfl

/-- C9: the constructed payload always carries `error_message` as an
actual string (`some`), and on a successful run that string is
empty. -/
theorem payload_error_message_always_string (d : String) (env : Env) :
    ((process_week d env).payload.error_message).isSome = true ∧
    ((process_week d env).returnedSuccess = true →
      (process_week d env).payload.error_message = some "") := by
  constructor
  · rfl
  · intro h
    have h1 : (runPhase1 d env).errorMessage.isNone = true := h
    have h2 : (runPhase1 d env).errorMessage = none :=
      Option.isNone_iff_eq_none.mp h1
    show some ((runPhase1 d env).errorMessage.getD "") = some ""
    rw [h2]
    rfl

set_option maxRecDepth 4000 in
/-- Witness for `payload_error_message_always_string` on a successful
concrete run. -/
theorem payload_error_message_always_string_witness :
    (process_week "2025-08-06" envOneGroup).payload.error_message = some "" :=
  (payload_error_message_always_string "2025-08-06" envOneGroup).2 rfl
